import Mathlib

/-!
Verification development for the XYChart static-viz component and the
Aggregation MBQL clause of the metabase frontend.

The chart renderer (`XYChart.tsx`) is embedded as a pure function from a
render input to a declarative scene, with its two external collaborators
(the numeric formatter and the text-metrics function) passed as explicit
function parameters.  Utility functions that the component imports but whose
source is not part of the reviewed tree (`sortSeries`, `calculateStackedItems`,
`calculateYDomains`, `createXScale`, `createYScales`, margin and bounds
helpers) are modelled from the specification, as marked in their doc comments.

The `Aggregation` clause class is embedded as an inductive over the tagged
array forms (standard operator, metric reference, custom expression,
aggregation-options wrapper), with the metadata metric lookup passed as a
function parameter and a fuel argument bounding the metric-delegation
recursion.
-/

namespace MB

/-! ## Format options and maybeAssoc -/

/-- Values that can be stored in a format-options object. -/
inductive FormatVal where
  | bool (b : Bool)
  | str (s : String)
  | num (q : ℚ)
deriving DecidableEq, Repr

/-- A format-options object, modelled as an association list over string keys. -/
def FormatOptions := List (String × FormatVal)

instance : DecidableEq FormatOptions := by
  unfold FormatOptions
  infer_instance

instance : Repr FormatOptions := by
  unfold FormatOptions
  infer_instance

/-- Lookup of a key in a format-options object (first binding wins). -/
def lookupFmt : FormatOptions → String → Option FormatVal
  | [], _ => none
  | p :: rest, k => if p.1 = k then some p.2 else lookupFmt rest k

/-- Embedding of icepick's `assoc` on an object: returns a copy of the
collection with `key` bound to `value`, leaving other bindings unchanged. -/
def assocFmt : FormatOptions → String → FormatVal → FormatOptions
  | [], k, v => [(k, v)]
  | p :: rest, k, v => if p.1 = k then (k, v) :: rest else p :: assocFmt rest k v

/-- Embedding of `maybeAssoc` from XYChart.tsx: returns the collection
unchanged when it is null/undefined, otherwise delegates to `assoc`. -/
def maybeAssoc : Option FormatOptions → String → FormatVal → Option FormatOptions
  | none, _, _ => none
  | some c, k, v => some (assocFmt c k v)

/-! ## Aggregation clause model -/

/-- Tagged-array forms of an MBQL aggregation clause: a standard operator
clause `[op]` / `[op, field]`, a metric reference `["metric", id]`, a custom
expression, or an `["aggregation-options", inner, opts]` wrapper whose options
object is modelled as a string-keyed map. -/
inductive AggClause where
  | standard (op : String) (field : Option ℚ)
  | metricA (id : ℕ)
  | custom
  | optionsA (inner : AggClause) (opts : List (String × String))
deriving DecidableEq, Repr

/-- The base types returned by `Aggregation.baseType`: `TYPE.Integer` or
`TYPE.Float`. -/
inductive BaseType where
  | integer
  | float
deriving DecidableEq, Repr

/-- Embedding of `INTEGER_AGGREGATIONS = new Set(["count", "cum-count", "distinct"])`. -/
def INTEGER_AGGREGATIONS : List String := ["count", "cum-count", "distinct"]

/-- Embedding of `hasOptions()`: the clause head is `"aggregation-options"`. -/
def hasOptions : AggClause → Bool
  | AggClause.optionsA _ _ => true
  | _ => false

/-- Embedding of `options()`: the third array element of an
`aggregation-options` wrapper, and the empty object otherwise. -/
def optionsOf : AggClause → List (String × String)
  | AggClause.optionsA _ opts => opts
  | _ => []

/-- Lookup of a string option by key (first binding wins). -/
def lookupOpt : List (String × String) → String → Option String
  | [], _ => none
  | p :: rest, k => if p.1 = k then some p.2 else lookupOpt rest k

/-- Embedding of `aggregation()`: strips one `aggregation-options` wrapper,
if any. -/
def aggregationOf : AggClause → AggClause
  | AggClause.optionsA inner _ => inner
  | c => c

/-- Embedding of `isMetric()`: the clause head is `"metric"`. -/
def isMetric : AggClause → Bool
  | AggClause.metricA _ => true
  | _ => false

/-- Embedding of `A_DEPRECATED.isStandard`: the clause is an array whose head
is a recognized standard operator. -/
def isStandard : AggClause → Bool
  | AggClause.standard op _ =>
      [ "count", "cum-count", "sum", "cum-sum", "distinct", "stddev", "avg",
        "median", "min", "max" ].contains op
  | _ => false

/-- Embedding of `A_DEPRECATED.isCustom`: the clause is a custom expression. -/
def isCustom : AggClause → Bool
  | AggClause.custom => true
  | _ => false

/-- Metric metadata: maps a metric id to the aggregation clause of the
metric's definition, when the metric exists.  Models
`metadata().metric(id)` followed by `metric.aggregation()`. -/
def Metadata := ℕ → Option AggClause

/-- Embedding of `Aggregation.short()`: unwraps one options layer; a metric
reference delegates to the underlying metric's aggregation (bounded by the
`fuel` argument, since the JS recursion is unbounded); a standard clause
yields its operator head; anything else yields `undefined`. -/
def shortAgg (md : Metadata) : ℕ → AggClause → Option String
  | fuel, c =>
    match aggregationOf c with
    | AggClause.metricA id =>
        match md id with
        | some defClause =>
            match fuel with
            | 0 => none
            | Nat.succ f => shortAgg md f defClause
        | none => none
    | AggClause.standard op _ => some op
    | _ => none

/-- Embedding of `Aggregation.columnName()`: a truthy (non-empty)
`"display-name"` option wins; a custom expression yields `"expression"`; a
resolvable metric delegates to its definition; a standard clause yields its
truthy short operator with `"distinct"` replaced by `"count"`; otherwise null. -/
def columnName (md : Metadata) : ℕ → AggClause → Option String
  | fuel, c =>
    let displayName : Option String :=
      match lookupOpt (optionsOf c) "display-name" with
      | some s => if s ≠ "" then some s else none
      | none => none
    match displayName with
    | some s => some s
    | none =>
      let a := aggregationOf c
      if isCustom a then some "expression"
      else if isMetric a then
        match a with
        | AggClause.metricA id =>
            match md id with
            | some defClause =>
                match fuel with
                | 0 => none
                | Nat.succ f => columnName md f defClause
            | none => none
        | _ => none
      else if isStandard a then
        match shortAgg md fuel c with
        | some s => if s ≠ "" then (if s = "distinct" then some "count" else some s) else none
        | none => none
      else none

/-- Embedding of `Aggregation.baseType()`:
`INTEGER_AGGREGATIONS.has(short) ? TYPE.Integer : TYPE.Float`, where a missing
short operator (undefined) is not in the set. -/
def baseType (md : Metadata) (fuel : ℕ) (c : AggClause) : BaseType :=
  match shortAgg md fuel c with
  | some s => if INTEGER_AGGREGATIONS.contains s then BaseType.integer else BaseType.float
  | none => BaseType.float

/-- Empty metadata: no metric resolves. -/
def mdEmpty : Metadata := fun _ => none

/-! ## Chart data model -/

/-- The visual type of a series. -/
inductive SeriesType where
  | bar
  | line
  | area
deriving DecidableEq, Repr

/-- The Y-axis side a series is assigned to. -/
inductive AxisSide where
  | left
  | right
deriving DecidableEq, Repr

/-- The x-axis scale type. -/
inductive XAxisType where
  | ordinal
  | timeseries
  | linear
deriving DecidableEq, Repr

/-- The stacking setting. -/
inductive Stacking where
  | noStack
  | stack
deriving DecidableEq, Repr

/-- An input series: visual type, data points, axis assignment, styling. -/
structure Series where
  name : String
  color : String
  type : SeriesType
  data : List (ℚ × ℚ)
  axis : AxisSide
deriving DecidableEq, Repr

/-- A hydrated series: an input series plus the stacked offsets computed by
`calculateStackedItems`; each stacked datum is `(x, baseline, top)`. -/
structure HydratedSeries where
  name : String
  color : String
  type : SeriesType
  data : List (ℚ × ℚ)
  axis : AxisSide
  stackedData : Option (List (ℚ × ℚ × ℚ))
deriving DecidableEq, Repr

/-! ## Series Normalizer: sorting and stacking -/

/-- Stable insertion of a point into a list sorted by x ascending. -/
def insertByX (p : ℚ × ℚ) : List (ℚ × ℚ) → List (ℚ × ℚ)
  | [] => [p]
  | q :: rest => if p.1 < q.1 then p :: q :: rest else q :: insertByX p rest

/-- Stable insertion sort of data points by x ascending. -/
def sortDataByX : List (ℚ × ℚ) → List (ℚ × ℚ)
  | [] => []
  | p :: rest => insertByX p (sortDataByX rest)

/-- Modelled from the spec: `sortSeries` (utils, source not in the reviewed
tree) sorts by a stable key derived from the x type — ordinal input keeps the
caller's label order, continuous input is sorted chronologically/numerically.
Hydrates each series with `stackedData := none`. -/
def sortSeries (series : List Series) (t : XAxisType) : List HydratedSeries :=
  series.map (fun s =>
    { name := s.name
      color := s.color
      type := s.type
      data := if t = XAxisType.ordinal then s.data else sortDataByX s.data
      axis := s.axis
      stackedData := none })

/-- The contribution of one series at a given x value: the sum of the y values
of its points at that x (zero when the series has no point there). -/
def seriesValueAt (d : List (ℚ × ℚ)) (x : ℚ) : ℚ :=
  ((d.filter (fun p => p.1 = x)).map Prod.snd).sum

/-- The cumulative baseline contributed by a list of earlier series at a
given x value. -/
def stackBaseline (prev : List HydratedSeries) (x : ℚ) : ℚ :=
  (prev.map (fun s => seriesValueAt s.data x)).sum

/-- Stacks one series on top of the given earlier series: each point `(x, y)`
becomes the stacked datum `(x, baseline, baseline + y)`. -/
def stackSeries (prev : List HydratedSeries) (s : HydratedSeries) : HydratedSeries :=
  let sd := s.data.map (fun p => (p.1, stackBaseline prev p.1, stackBaseline prev p.1 + p.2))
  { s with stackedData := some sd }

/-- Worker for `calculateStackedItems`, carrying the series already stacked. -/
def calcStackedGo : List HydratedSeries → List HydratedSeries → List HydratedSeries
  | _, [] => []
  | prev, s :: rest => stackSeries prev s :: calcStackedGo (prev ++ [s]) rest

/-- Modelled from the spec: `calculateStackedItems` (utils, source not in the
reviewed tree) recomputes each point's plotted Y as the cumulative sum of
same-x values across series in series order, producing for each series a
(baseline, top) pair per point. -/
def calculateStackedItems (series : List HydratedSeries) : List HydratedSeries :=
  calcStackedGo [] series

/-! ## Chart settings and style -/

/-- The goal-line setting: a target value and its label. -/
structure ChartGoal where
  value : ℚ
  label : String
deriving DecidableEq, Repr

/-- How x ticks are displayed. -/
inductive TickDisplay where
  | show
  | rotate45
  | hide
deriving DecidableEq, Repr

/-- The x-axis settings. -/
structure XSettings where
  type : XAxisType
  format : Option FormatOptions
  tick_display : TickDisplay
deriving DecidableEq, Repr

/-- The y-axis scale type. -/
inductive YAxisType where
  | linear
  | log
  | pow
deriving DecidableEq, Repr

/-- The y-axis settings. -/
structure YSettings where
  type : YAxisType
  format : Option FormatOptions
deriving DecidableEq, Repr

/-- The axis labels. -/
structure ChartLabels where
  left : Option String
  right : Option String
  bottom : Option String
deriving DecidableEq, Repr

/-- The chart settings. -/
structure ChartSettings where
  x : XSettings
  y : YSettings
  stacking : Stacking
  goal : Option ChartGoal
  show_values : Bool
  labels : ChartLabels
deriving DecidableEq, Repr

/-- The chart style fields the embedding uses: the tick font size, the legend
line height and the goal-line color. -/
structure ChartStyle where
  tickFontSize : ℚ
  labelFontSize : ℚ
  legendLineHeight : ℚ
  goalColor : String
deriving DecidableEq, Repr

/-- The render input of `XYChart`. -/
structure RenderInput where
  width : ℚ
  height : ℚ
  series : List Series
  settings : ChartSettings
  style : ChartStyle
deriving DecidableEq, Repr

/-- The two external pure collaborators of the chart core: the numeric
formatter and the text-metrics function. -/
structure Collaborators where
  formatNumber : ℚ → Option FormatOptions → String
  measureText : String → ℚ → ℚ

/-! ## Scales -/

/-- A concrete Y scale: a linear domain-to-range mapping. -/
structure YScale where
  domain : ℚ × ℚ
  range : ℚ × ℚ
deriving DecidableEq, Repr

/-- Applies a Y scale: linear interpolation of the domain onto the range. -/
def applyYScale (s : YScale) (v : ℚ) : ℚ :=
  s.range.1 + (v - s.domain.1) / (s.domain.2 - s.domain.1) * (s.range.2 - s.range.1)

/-- The X scale: the center accessor for line/area anchors, and the optional
bar anchor accessor and bandwidth. -/
structure XScale where
  lineAccessor : ℚ → ℚ
  barAccessor : Option (ℚ → ℚ)
  bandwidth : Option ℚ

/-- The distinct x values of the series data, in first-appearance order. -/
def xValuesOf (series : List HydratedSeries) : List ℚ :=
  ((series.map (fun s => s.data)).flatten.map Prod.fst).dedup

/-- Minimum of a list of rationals (0 for the empty list). -/
def listMin : List ℚ → ℚ
  | [] => 0
  | x :: xs => xs.foldl min x

/-- Maximum of a list of rationals (0 for the empty list). -/
def listMax : List ℚ → ℚ
  | [] => 0
  | x :: xs => xs.foldl max x

/-- Modelled from the spec: `createXScale` (utils, source not in the reviewed
tree).  An ordinal x axis gets a band scale: uniform bandwidth derived from
the slot count, a bar anchor at the band start and a center accessor at the
band middle.  A continuous (timeseries or linear) x axis gets a linear
position function; the bar anchor and center accessors coincide and no
bandwidth is exposed (the data model reserves bandwidth for ordinal scales). -/
def createXScale (series : List HydratedSeries) (range : ℚ × ℚ) (t : XAxisType) : XScale :=
  let xs := xValuesOf series
  if t = XAxisType.ordinal then
    let band := (range.2 - range.1) / xs.length
    let pos := fun x => range.1 + (xs.indexOf x) * band
    { lineAccessor := fun x => pos x + band / 2
      barAccessor := some pos
      bandwidth := some band }
  else
    let lo := listMin xs
    let hi := listMax xs
    let f := fun x => range.1 + (x - lo) / (hi - lo) * (range.2 - range.1)
    { lineAccessor := f
      barAccessor := some f
      bandwidth := none }

/-- Modelled from the spec: `createYScales` (utils, source not in the reviewed
tree) builds one scale per side whose domain is present; an absent domain
yields no scale, not a default one. -/
def createYScales (range : ℚ × ℚ) (_t : YAxisType)
    (domLeft domRight : Option (ℚ × ℚ)) : Option YScale × Option YScale :=
  (domLeft.map (fun d => YScale.mk d range), domRight.map (fun d => YScale.mk d range))

/-- Embedding of `const defaultYScale = yScaleLeft || yScaleRight` from
XYChart.tsx (a scale object is always truthy). -/
def defaultYScale (l r : Option YScale) : Option YScale :=
  match l with
  | some s => some s
  | none => r

/-! ## Domain Calculator -/

/-- The y extents a hydrated series contributes to its axis domain: the
stacked baselines and tops when stacked, the raw y values otherwise. -/
def seriesYExtents (s : HydratedSeries) : List ℚ :=
  match s.stackedData with
  | some sd => (sd.map (fun d => [d.2.1, d.2.2])).flatten
  | none => s.data.map Prod.snd

/-- The y values occupying one axis side. -/
def sideValues (series : List HydratedSeries) (side : AxisSide) : List ℚ :=
  ((series.filter (fun s => s.axis = side)).map seriesYExtents).flatten

/-- Whether a side holds a bar or area series (its domain must include zero). -/
def sideHasBarOrArea (series : List HydratedSeries) (side : AxisSide) : Bool :=
  (series.filter (fun s => s.axis = side)).any
    (fun s => s.type = SeriesType.bar ∨ s.type = SeriesType.area)

/-- The domain of one axis side: `none` when no series occupies the side,
otherwise the min/max of its values, extended with zero for bar/area series
and with the goal value when this side receives the goal. -/
def domainOfSide (ys : List ℚ) (includeZero : Bool) (goal : Option ℚ) : Option (ℚ × ℚ) :=
  match ys with
  | [] => none
  | _ =>
    let ys2 := ys ++ (if includeZero then [0] else []) ++ goal.toList
    some (listMin ys2, listMax ys2)

/-- Modelled from the spec: `calculateYDomains` (utils, source not in the
reviewed tree) computes independent left/right numeric domains, `none` when no
series occupies a side; the domain includes zero when the side holds bar or
area series, and the goal value extends only the default side (left when
occupied, else right). -/
def calculateYDomains (series : List HydratedSeries) (goal : Option ℚ) :
    Option (ℚ × ℚ) × Option (ℚ × ℚ) :=
  let leftVals := sideValues series AxisSide.left
  let rightVals := sideValues series AxisSide.right
  let defaultIsLeft := ¬ leftVals.isEmpty
  ( domainOfSide leftVals (sideHasBarOrArea series AxisSide.left)
      (if defaultIsLeft then goal else none),
    domainOfSide rightVals (sideHasBarOrArea series AxisSide.right)
      (if defaultIsLeft then none else goal) )

/-! ## Layout Solver -/

/-- Fixed chart padding constant (modelled from the spec's fixed padding
constants; the exact pixel value is not observable by any claim). -/
def CHART_PADDING : ℚ := 10

/-- Fixed label padding constant. -/
def LABEL_PADDING : ℚ := 12

/-- The computed margins, in pixels. -/
structure Margin where
  top : ℚ
  bottom : ℚ
  left : ℚ
  right : ℚ
deriving DecidableEq, Repr

/-- Modelled from the spec: `getYTickWidths` (utils, source not in the
reviewed tree) measures formatted tick labels of each present domain with the
text-metrics collaborator; an absent domain contributes width 0. -/
def getYTickWidths (co : Collaborators) (fmt : Option FormatOptions) (fontSize : ℚ)
    (domLeft domRight : Option (ℚ × ℚ)) : ℚ × ℚ :=
  let widthOf := fun (d : Option (ℚ × ℚ)) =>
    match d with
    | none => 0
    | some d =>
      max (co.measureText (co.formatNumber d.1 fmt) fontSize)
          (co.measureText (co.formatNumber d.2 fmt) fontSize)
  (widthOf domLeft, widthOf domRight)

/-- Modelled from the spec: x tick dimensions — the widest measured tick text
and a height of one font line. -/
def getXTicksDimensions (co : Collaborators) (series : List HydratedSeries)
    (xs : XSettings) (fontSize : ℚ) : ℚ × ℚ :=
  let w := listMax ((xValuesOf series).map (fun x => co.measureText (co.formatNumber x xs.format) fontSize))
  (w, fontSize)

/-- Modelled from the spec: `calculateMargin` (utils, source not in the
reviewed tree).  Each margin is the sum of the tick-label extent, the axis
label extent when present, and fixed padding; extra top headroom is reserved
when value labels or a goal line are shown. -/
def calculateMargin (yTickWidthLeft yTickWidthRight xTicksHeight _xTicksWidth : ℚ)
    (labels : ChartLabels) (fontSize : ℚ) (topHeadroom : Bool) : Margin :=
  { top := CHART_PADDING + (if topHeadroom then fontSize + LABEL_PADDING else 0)
    bottom := xTicksHeight + CHART_PADDING
      + (if labels.bottom.isSome then fontSize + LABEL_PADDING else 0)
    left := yTickWidthLeft + CHART_PADDING
      + (if labels.left.isSome then fontSize + LABEL_PADDING else 0)
    right := yTickWidthRight + CHART_PADDING
      + (if labels.right.isSome then fontSize + LABEL_PADDING else 0) }

/-- The plot-area bounds derived from the margins. -/
structure Bounds where
  xMin : ℚ
  xMax : ℚ
  yMin : ℚ
  innerWidth : ℚ
  innerHeight : ℚ
deriving DecidableEq, Repr

/-- Modelled from the spec: `calculateBounds` (utils, source not in the
reviewed tree) derives the plot area from the margins and outer size. -/
def calculateBounds (m : Margin) (width height : ℚ) : Bounds :=
  { xMin := m.left
    xMax := width - m.right
    yMin := height - m.bottom
    innerWidth := width - m.right - m.left
    innerHeight := height - m.bottom - m.top }

/-! ## Legend -/

/-- Modelled from the spec: `getLegendColumns` (utils, source not in the
reviewed tree) balances legend items into up to two columns by item count. -/
def getLegendColumns (series : List HydratedSeries) : List String × List String :=
  let names := series.map (fun s => s.name)
  (names.take ((names.length + 1) / 2), names.drop ((names.length + 1) / 2))

/-! ## Render pipeline (XYChart.tsx body) -/

/-- The hydrated series of a render: `sortSeries`, then
`calculateStackedItems` when `settings.stacking === "stack"` (XYChart.tsx
lines 56-60). -/
def hydratedOf (inp : RenderInput) : List HydratedSeries :=
  let sorted := sortSeries inp.series inp.settings.x.type
  if inp.settings.stacking = Stacking.stack then calculateStackedItems sorted else sorted

/-- The y domains of a render:
`calculateYDomains(series, settings.goal?.value)`. -/
def yDomainsOf (inp : RenderInput) : Option (ℚ × ℚ) × Option (ℚ × ℚ) :=
  calculateYDomains (hydratedOf inp) (inp.settings.goal.map (fun g => g.value))

/-- The margins of a render. -/
def marginOf (co : Collaborators) (inp : RenderInput) : Margin :=
  let doms := yDomainsOf inp
  let tw := getYTickWidths co inp.settings.y.format inp.style.tickFontSize doms.1 doms.2
  let xd := getXTicksDimensions co (hydratedOf inp) inp.settings.x inp.style.tickFontSize
  calculateMargin tw.1 tw.2 xd.2 xd.1 inp.settings.labels inp.style.tickFontSize
    (inp.settings.goal.isSome || inp.settings.show_values)

/-- The plot bounds of a render. -/
def boundsOf (co : Collaborators) (inp : RenderInput) : Bounds :=
  calculateBounds (marginOf co inp) inp.width inp.height

/-- The X scale of a render: `createXScale(series, [0, innerWidth], settings.x.type)`. -/
def xScaleOf (co : Collaborators) (inp : RenderInput) : XScale :=
  createXScale (hydratedOf inp) (0, (boundsOf co inp).innerWidth) inp.settings.x.type

/-- The pair of Y scales of a render:
`createYScales([innerHeight, 0], settings.y.type, yDomains.left, yDomains.right)`. -/
def yScalesOf (co : Collaborators) (inp : RenderInput) : Option YScale × Option YScale :=
  let doms := yDomainsOf inp
  createYScales ((boundsOf co inp).innerHeight, 0) inp.settings.y.type doms.1 doms.2

/-- The left Y scale of a render. -/
def yScaleLeftOf (co : Collaborators) (inp : RenderInput) : Option YScale :=
  (yScalesOf co inp).1

/-- The right Y scale of a render. -/
def yScaleRightOf (co : Collaborators) (inp : RenderInput) : Option YScale :=
  (yScalesOf co inp).2

/-- The default Y scale of a render: `yScaleLeft || yScaleRight`. -/
def defaultYScaleOf (co : Collaborators) (inp : RenderInput) : Option YScale :=
  defaultYScale (yScaleLeftOf co inp) (yScaleRightOf co inp)

/-- Embedding of `getAvgLength` from XYChart.tsx: the mean length, over every
data point of every series, of the y value formatted with the compact flag
assoc'ed into the y format options. -/
def getAvgLength (co : Collaborators) (series : List HydratedSeries)
    (yFormat : Option FormatOptions) (compact : Bool) : ℚ :=
  let lengths := ((series.map (fun s => s.data)).flatten).map
    (fun p => ((co.formatNumber p.2 (maybeAssoc yFormat "compact" (FormatVal.bool compact))).length : ℚ))
  lengths.sum / lengths.length

/-- Embedding of `const compact = getAvgLength(true) < getAvgLength(false) - 3`. -/
def compactOf (co : Collaborators) (inp : RenderInput) : Bool :=
  decide (getAvgLength co (hydratedOf inp) inp.settings.y.format true
    < getAvgLength co (hydratedOf inp) inp.settings.y.format false - 3)

/-- Embedding of `valueFormatter`: formats a value with the single chart-wide
compact decision assoc'ed into the y format options. -/
def valueFormatterOf (co : Collaborators) (inp : RenderInput) (v : ℚ) : String :=
  co.formatNumber v (maybeAssoc inp.settings.y.format "compact" (FormatVal.bool (compactOf co inp)))

/-- The bar series of a render. -/
def barsOf (inp : RenderInput) : List HydratedSeries :=
  (hydratedOf inp).filter (fun s => s.type = SeriesType.bar)

/-- The line series of a render. -/
def linesOf (inp : RenderInput) : List HydratedSeries :=
  (hydratedOf inp).filter (fun s => s.type = SeriesType.line)

/-- The area series of a render. -/
def areasOf (inp : RenderInput) : List HydratedSeries :=
  (hydratedOf inp).filter (fun s => s.type = SeriesType.area)

/-! ## Scene -/

/-- The grid-rows element: drawn against a Y scale, spanning the inner width. -/
structure GridSpec where
  scale : YScale
  width : ℚ
deriving DecidableEq, Repr

/-- A rendered series group (bars, lines or areas): the series it draws and
the printed value labels, each the pair of a y value and its formatted text. -/
structure SeriesGroupSpec where
  seriesList : List HydratedSeries
  valueLabels : List (ℚ × String)
deriving DecidableEq, Repr

/-- The goal-line element: horizontal at `y`, spanning `x1..x2`, labelled. -/
structure GoalSpec where
  label : String
  x1 : ℚ
  x2 : ℚ
  y : ℚ
  color : String
deriving DecidableEq, Repr

/-- A Y-axis element: its scale, label and label offset. -/
structure AxisSpec where
  scale : YScale
  label : Option String
  labelOffset : ℚ
deriving DecidableEq, Repr

/-- The emitted scene: the declarative element tree returned by `XYChart`. -/
structure Scene where
  width : ℚ
  totalHeight : ℚ
  grid : Option GridSpec
  bars : Option SeriesGroupSpec
  areas : SeriesGroupSpec
  lines : SeriesGroupSpec
  goal : Option GoalSpec
  axisLeft : Option AxisSpec
  axisRight : Option AxisSpec
  legendLeftColumn : List String
  legendRightColumn : List String
  legendTop : ℚ
deriving DecidableEq, Repr

/-- The value labels of a series group, printed only when `show_values` is
set: each data point's y value formatted with the chart-wide value formatter
(the label-emission positions of the shape components are modelled from the
spec; the formatter threading follows XYChart.tsx). -/
def groupLabels (co : Collaborators) (inp : RenderInput)
    (group : List HydratedSeries) : List (ℚ × String) :=
  if inp.settings.show_values then
    ((group.map (fun s => s.data)).flatten).map (fun p => (p.2, valueFormatterOf co inp p.2))
  else []

/-- The goal-line element of a render: present when `settings.goal` is set and
the default Y scale exists; `x1 = 0`, `x2 = innerWidth`, `y` is the default
scale applied to the goal value (XYChart.tsx lines 229-238). -/
def goalElemOf (co : Collaborators) (inp : RenderInput) : Option GoalSpec :=
  match inp.settings.goal, defaultYScaleOf co inp with
  | some g, some sc =>
      some { label := g.label
             x1 := 0
             x2 := (boundsOf co inp).innerWidth
             y := applyYScale sc g.value
             color := inp.style.goalColor }
  | _, _ => none

/-- The scene a successful render emits, assembled per the JSX of
XYChart.tsx: the grid when the default Y scale exists, the bar group when the
X scale exposes both a bar accessor and a bandwidth, the area and line groups
unconditionally, the goal element, one Y axis per present scale, and the
legend columns below the chart. -/
def sceneTotal (co : Collaborators) (inp : RenderInput) : Scene :=
  let bounds := boundsOf co inp
  let xScale := xScaleOf co inp
  let legend := getLegendColumns (hydratedOf inp)
  let legendHeight := (max legend.1.length legend.2.length : ℚ) * inp.style.legendLineHeight
  let doms := yDomainsOf inp
  let tw := getYTickWidths co inp.settings.y.format inp.style.tickFontSize doms.1 doms.2
  { width := inp.width
    totalHeight := inp.height + legendHeight
    grid := (defaultYScaleOf co inp).map (fun sc => GridSpec.mk sc bounds.innerWidth)
    bars :=
      if xScale.barAccessor.isSome && xScale.bandwidth.isSome then
        some (SeriesGroupSpec.mk (barsOf inp) (groupLabels co inp (barsOf inp)))
      else none
    areas := SeriesGroupSpec.mk (areasOf inp) (groupLabels co inp (areasOf inp))
    lines := SeriesGroupSpec.mk (linesOf inp) (groupLabels co inp (linesOf inp))
    goal := goalElemOf co inp
    axisLeft := (yScaleLeftOf co inp).map
      (fun sc => AxisSpec.mk sc inp.settings.labels.left (tw.1 + LABEL_PADDING))
    axisRight := (yScaleRightOf co inp).map
      (fun sc => AxisSpec.mk sc inp.settings.labels.right LABEL_PADDING)
    legendLeftColumn := legend.1
    legendRightColumn := legend.2
    legendTop := inp.height }

/-- The render errors the embedding can signal: the TypeError raised by the
non-null assertion `defaultYScale!` when a goal is configured but no Y scale
exists. -/
inductive RenderError where
  | typeError
deriving DecidableEq, Repr

/-- Embedding of the `XYChart` component: a render either raises the
TypeError of `defaultYScale!(settings.goal.value)` (goal configured, no axis
resolvable) or returns the fully assembled scene.  No other input raises. -/
def XYChart (co : Collaborators) (inp : RenderInput) : Except RenderError Scene :=
  if inp.settings.goal.isSome && (defaultYScaleOf co inp).isNone then
    Except.error RenderError.typeError
  else
    Except.ok (sceneTotal co inp)

/-- The Y-axis element of a scene on a given side. -/
def axisOfSide (s : Scene) : AxisSide → Option AxisSpec
  | AxisSide.left => s.axisLeft
  | AxisSide.right => s.axisRight

/-- The Y scale of a render on a given side. -/
def yScaleOfSide (co : Collaborators) (inp : RenderInput) : AxisSide → Option YScale
  | AxisSide.left => yScaleLeftOf co inp
  | AxisSide.right => yScaleRightOf co inp

/-- The other axis side. -/
def oppositeSide : AxisSide → AxisSide
  | AxisSide.left => AxisSide.right
  | AxisSide.right => AxisSide.left

/-! ## Concrete sample inputs -/

/-- Sample collaborators: a formatter whose compact notation is four
characters shorter than its full notation, and a text metric proportional to
the text length. -/
def co0 : Collaborators :=
  { formatNumber := fun _ f =>
      match f with
      | some opts =>
        match lookupFmt opts "compact" with
        | some (FormatVal.bool true) => "1k"
        | _ => "100000"
      | none => "100000"
    measureText := fun s fs => (s.length : ℚ) * fs }

/-- Sample chart style. -/
def style0 : ChartStyle :=
  { tickFontSize := 11, labelFontSize := 11, legendLineHeight := 18, goalColor := "#84BB4C" }

/-- Sample axis labels: all absent. -/
def labels0 : ChartLabels := { left := none, right := none, bottom := none }

/-- Sample settings: ordinal x, linear y, no stacking, no goal, no labels. -/
def settingsEmpty : ChartSettings :=
  { x := { type := XAxisType.ordinal, format := none, tick_display := TickDisplay.show }
    y := { type := YAxisType.linear, format := none }
    stacking := Stacking.noStack
    goal := none
    show_values := false
    labels := labels0 }

/-- Sample render input with a zero-length series list. -/
def inpEmpty : RenderInput :=
  { width := 400, height := 300, series := [], settings := settingsEmpty, style := style0 }

/-- A bar series on the left axis. -/
def seriesBarLeft : Series :=
  { name := "b", color := "#509EE3", type := SeriesType.bar, data := [(0, 1), (1, 2)],
    axis := AxisSide.left }

/-- A line series on the left axis. -/
def seriesLineLeft : Series :=
  { name := "l1", color := "#88BF4D", type := SeriesType.line, data := [(0, 1), (1, 5)],
    axis := AxisSide.left }

/-- Sample settings with a linear x axis. -/
def settingsLinear : ChartSettings :=
  { settingsEmpty with
      x := { type := XAxisType.linear, format := none, tick_display := TickDisplay.show } }

/-- Sample render input: a bar series on a linear (continuous) x axis. -/
def inpLinearBar : RenderInput :=
  { width := 400, height := 300, series := [seriesBarLeft], settings := settingsLinear,
    style := style0 }

/-- Sample settings with a goal line. -/
def settingsGoal : ChartSettings :=
  { settingsEmpty with goal := some { value := 10, label := "Target" }, show_values := true }

/-- Sample render input: a left-axis line series with a goal configured. -/
def inpGoal : RenderInput :=
  { width := 400, height := 300, series := [seriesLineLeft], settings := settingsGoal,
    style := style0 }

/-- Two hydrated series sharing x values 0 and 1, used as stacking witnesses. -/
def seriesStackA : HydratedSeries :=
  { name := "a", color := "#509EE3", type := SeriesType.bar, data := [(0, 1), (1, 2)],
    axis := AxisSide.left, stackedData := none }

/-- Second stacking witness series. -/
def seriesStackB : HydratedSeries :=
  { name := "b", color := "#88BF4D", type := SeriesType.bar, data := [(0, 3), (1, 4)],
    axis := AxisSide.left, stackedData := none }

/-! # Theorems -/

/-! ## Stacking invariants (claim C2) -/

theorem calcStackedGo_getElem? (l : List HydratedSeries) (prev : List HydratedSeries) (i : ℕ) :
    (calcStackedGo prev l)[i]? = (l[i]?).map (fun s => stackSeries (prev ++ l.take i) s) := by
  induction l generalizing prev i with
  | nil => simp [calcStackedGo]
  | cons s rest ih =>
    cases i with
    | zero => simp [calcStackedGo]
    | succ n =>
      simp only [calcStackedGo, List.getElem?_cons_succ, List.take_succ_cons, ih]
      rw [List.append_assoc, List.singleton_append]

theorem seriesValueAt_nonneg (d : List (ℚ × ℚ)) (x : ℚ) (h : ∀ p ∈ d, 0 ≤ p.2) :
    0 ≤ seriesValueAt d x := by
  unfold seriesValueAt
  apply List.sum_nonneg
  intro a ha
  obtain ⟨p, hp, rfl⟩ := List.mem_map.mp ha
  exact h p (List.mem_of_mem_filter hp)

theorem stackBaseline_nonneg (l : List HydratedSeries) (x : ℚ)
    (h : ∀ s ∈ l, ∀ p ∈ s.data, 0 ≤ p.2) : 0 ≤ stackBaseline l x := by
  unfold stackBaseline
  apply List.sum_nonneg
  intro a ha
  obtain ⟨s, hs, rfl⟩ := List.mem_map.mp ha
  exact seriesValueAt_nonneg _ _ (h s hs)

theorem stackBaseline_append (a b : List HydratedSeries) (x : ℚ) :
    stackBaseline (a ++ b) x = stackBaseline a x + stackBaseline b x := by
  simp [stackBaseline]

theorem stackBaseline_take_mono (l : List HydratedSeries) (x : ℚ) (i j : ℕ)
    (hij : i ≤ j) (h : ∀ s ∈ l, ∀ p ∈ s.data, 0 ≤ p.2) :
    stackBaseline (l.take i) x ≤ stackBaseline (l.take j) x := by
  have hj : j = i + (j - i) := (Nat.add_sub_cancel' hij).symm
  rw [hj, List.take_add, stackBaseline_append]
  have hnn : 0 ≤ stackBaseline ((l.drop i).take (j - i)) x := by
    apply stackBaseline_nonneg
    intro s hs p hp
    exact h s (List.mem_of_mem_drop (List.mem_of_mem_take hs)) p hp
  linarith

theorem seriesValueAt_eq_of_nodup (d : List (ℚ × ℚ)) (p : ℚ × ℚ)
    (hnd : (d.map Prod.fst).Nodup) (hp : p ∈ d) : seriesValueAt d p.1 = p.2 := by
  induction d with
  | nil => cases hp
  | cons q rest ih =>
    rw [List.map_cons, List.nodup_cons] at hnd
    rcases List.mem_cons.mp hp with h | h
    · subst h
      have hres : rest.filter (fun r => r.1 = p.1) = [] := by
        rw [List.filter_eq_nil_iff]
        intro r hr
        simp only [decide_eq_true_eq]
        intro hx
        exact hnd.1 (hx ▸ List.mem_map_of_mem Prod.fst hr)
      simp [seriesValueAt, List.filter_cons, hres]
    · have hq : ¬ (q.1 = p.1) :=
        fun hh => hnd.1 (hh ▸ List.mem_map_of_mem Prod.fst h)
      have hrec := ih hnd.2 h
      simpa [seriesValueAt, List.filter_cons, hq] using hrec

/-- Claim C2: for every series list stacked by `calculateStackedItems`, the
i-th output series carries the stacked data whose baseline is the cumulative
sum of the earlier series' values at the same x; at every x shared by two
output entries the baselines are non-decreasing in series order and
non-negative for non-negative-valued series (with the top above the
baseline); and the top of the last series' entry at x equals the sum of all
series' values at that x. -/
theorem stacked_invariant (series : List HydratedSeries)
    (hpos : ∀ s ∈ series, ∀ p ∈ s.data, 0 ≤ p.2)
    (hkeys : ∀ s ∈ series, (s.data.map Prod.fst).Nodup) :
    (∀ i : ℕ, (calculateStackedItems series)[i]? =
      (series[i]?).map (fun s => stackSeries (series.take i) s)) ∧
    (∀ i j : ℕ, i ≤ j → ∀ si sj, (calculateStackedItems series)[i]? = some si →
      (calculateStackedItems series)[j]? = some sj →
      ∀ x b t b' t', (x, b, t) ∈ si.stackedData.getD [] →
        (x, b', t') ∈ sj.stackedData.getD [] →
        0 ≤ b ∧ b ≤ t ∧ b ≤ b') ∧
    (∀ pre slast, series = pre ++ [slast] →
      ∀ out, (calculateStackedItems series)[pre.length]? = some out →
      ∀ x b t, (x, b, t) ∈ out.stackedData.getD [] →
        t = (series.map (fun s => seriesValueAt s.data x)).sum) := by
  have hchar : ∀ i : ℕ, (calculateStackedItems series)[i]? =
      (series[i]?).map (fun s => stackSeries (series.take i) s) := by
    intro i
    simpa using calcStackedGo_getElem? series [] i
  refine ⟨hchar, ?_, ?_⟩
  · intro i j hij si sj hsi hsj x b t b' t' hmi hmj
    rw [hchar i] at hsi
    rw [hchar j] at hsj
    cases hsi0 : series[i]? with
    | none => rw [hsi0] at hsi; cases hsi
    | some si0 =>
      cases hsj0 : series[j]? with
      | none => rw [hsj0] at hsj; cases hsj
      | some sj0 =>
        rw [hsi0] at hsi
        rw [hsj0] at hsj
        have hsi' : si = stackSeries (series.take i) si0 := (Option.some_inj.mp hsi).symm
        have hsj' : sj = stackSeries (series.take j) sj0 := (Option.some_inj.mp hsj).symm
        subst hsi'
        subst hsj'
        simp only [stackSeries, Option.getD_some] at hmi hmj
        obtain ⟨p, hpmem, hpe⟩ := List.mem_map.mp hmi
        obtain ⟨q, hqmem, hqe⟩ := List.mem_map.mp hmj
        simp only [Prod.mk.injEq] at hpe hqe
        obtain ⟨hx1, hb1, ht1⟩ := hpe
        obtain ⟨hx2, hb2, ht2⟩ := hqe
        subst hx1
        subst hb1
        subst ht1
        subst hb2
        subst ht2
        have hsi0mem : si0 ∈ series := List.getElem?_mem hsi0
        have hp2 : 0 ≤ p.2 := hpos si0 hsi0mem p hpmem
        have htake : ∀ n : ℕ, ∀ s ∈ series.take n, ∀ r ∈ s.data, 0 ≤ r.2 :=
          fun n s hs r hr => hpos s (List.mem_of_mem_take hs) r hr
        refine ⟨stackBaseline_nonneg _ _ (htake i), by linarith, ?_⟩
        rw [hx2]
        exact stackBaseline_take_mono series p.1 i j hij hpos
  · intro pre slast hsplit out hout x b t hmem
    have hchar' := hchar pre.length
    rw [hchar'] at hout
    have hidx : series[pre.length]? = some slast := by
      rw [hsplit]
      rw [List.getElem?_append_right (Nat.le_refl pre.length)]
      simp
    rw [hidx] at hout
    have hout' : out = stackSeries (series.take pre.length) slast :=
      (Option.some_inj.mp hout).symm
    subst hout'
    have htake : series.take pre.length = pre := by
      rw [hsplit]
      exact List.take_left pre [slast]
    simp only [stackSeries, Option.getD_some] at hmem
    obtain ⟨p, hpmem, hpe⟩ := List.mem_map.mp hmem
    simp only [Prod.mk.injEq] at hpe
    obtain ⟨hx1, hb1, ht1⟩ := hpe
    subst hx1
    subst ht1
    have hslastmem : slast ∈ series := by
      rw [hsplit]
      exact List.mem_append_right pre (List.mem_singleton.mpr rfl)
    have hval : seriesValueAt slast.data p.1 = p.2 :=
      seriesValueAt_eq_of_nodup slast.data p (hkeys slast hslastmem) hpmem
    have hsum : (series.map (fun s => seriesValueAt s.data p.1)).sum
        = stackBaseline pre p.1 + seriesValueAt slast.data p.1 := by
      rw [hsplit]
      simp [stackBaseline]
    rw [hsum, hval, htake]

/-- Witness for C2: two concrete bar series with shared x values 0 and 1
satisfy the hypotheses, and the stacked output is characterized per series
index. -/
theorem stacked_invariant_witness :
    ((∀ s ∈ [seriesStackA, seriesStackB], ∀ p ∈ s.data, 0 ≤ p.2) ∧
      (∀ s ∈ [seriesStackA, seriesStackB], (s.data.map Prod.fst).Nodup)) ∧
    (∀ i : ℕ, (calculateStackedItems [seriesStackA, seriesStackB])[i]? =
      (([seriesStackA, seriesStackB])[i]?).map
        (fun s => stackSeries (([seriesStackA, seriesStackB]).take i) s)) :=
  ⟨⟨by decide, by decide⟩,
    (stacked_invariant [seriesStackA, seriesStackB] (by decide) (by decide)).1⟩

/-! ## Render success and failure (claim C1) -/

theorem XYChart_ok (co : Collaborators) (inp : RenderInput) (s : Scene)
    (h : XYChart co inp = Except.ok s) :
    s = sceneTotal co inp ∧
      (inp.settings.goal.isSome = true → ∃ d, defaultYScaleOf co inp = some d) := by
  unfold XYChart at h
  by_cases hc : (inp.settings.goal.isSome && (defaultYScaleOf co inp).isNone) = true
  · rw [if_pos hc] at h
    cases h
  · rw [if_neg hc] at h
    injection h with h'
    refine ⟨h'.symm, fun hg => ?_⟩
    cases hd : defaultYScaleOf co inp with
    | some d => exact ⟨d, rfl⟩
    | none => exact absurd (by simp [hg, hd]) hc

theorem hydratedOf_empty (inp : RenderInput) (hser : inp.series = []) :
    hydratedOf inp = [] := by
  unfold hydratedOf sortSeries
  rw [hser]
  simp [calculateStackedItems, calcStackedGo]

/-- Claim C1 (amended): a render call with a zero-length series list and no
goal does not raise; it returns a complete scene that simply has no grid, no
Y axes and no series shapes (an empty chart).  No `InvalidLayoutError` exists
in the code. -/
theorem empty_series_renders (co : Collaborators) (inp : RenderInput)
    (hser : inp.series = []) (hgoal : inp.settings.goal = none) :
    XYChart co inp = Except.ok (sceneTotal co inp) ∧
    (sceneTotal co inp).grid = none ∧
    (sceneTotal co inp).axisLeft = none ∧
    (sceneTotal co inp).axisRight = none ∧
    (∀ g, (sceneTotal co inp).bars = some g → g.seriesList = []) ∧
    (sceneTotal co inp).areas.seriesList = [] ∧
    (sceneTotal co inp).lines.seriesList = [] := by
  have hh : hydratedOf inp = [] := hydratedOf_empty inp hser
  have hdom : yDomainsOf inp = (none, none) := by
    unfold yDomainsOf calculateYDomains
    rw [hh]
    simp [sideValues, domainOfSide]
  have hl : yScaleLeftOf co inp = none := by
    unfold yScaleLeftOf yScalesOf createYScales
    rw [hdom]
    simp
  have hr : yScaleRightOf co inp = none := by
    unfold yScaleRightOf yScalesOf createYScales
    rw [hdom]
    simp
  have hdef : defaultYScaleOf co inp = none := by
    unfold defaultYScaleOf
    rw [hl, hr]
    rfl
  have hbars : barsOf inp = [] := by
    unfold barsOf
    rw [hh]
    rfl
  have hareas : areasOf inp = [] := by
    unfold areasOf
    rw [hh]
    rfl
  have hlines : linesOf inp = [] := by
    unfold linesOf
    rw [hh]
    rfl
  refine ⟨?_, ?_, ?_, ?_, ?_, ?_, ?_⟩
  · unfold XYChart
    simp [hgoal]
  · simp [sceneTotal, hdef]
  · simp [sceneTotal, hl]
  · simp [sceneTotal, hr]
  · intro g hg
    simp only [sceneTotal] at hg
    by_cases hc : ((xScaleOf co inp).barAccessor.isSome && (xScaleOf co inp).bandwidth.isSome) = true
    · rw [if_pos hc] at hg
      injection hg with hg'
      rw [← hg', hbars]
    · rw [if_neg hc] at hg
      cases hg
  · simp [sceneTotal, hareas]
  · simp [sceneTotal, hlines]

/-- Counterexample for C1 as stated: rendering a concrete zero-length series
list raises nothing — it returns the fully assembled (empty) scene, so no
`InvalidLayoutError` is signalled. -/
theorem empty_series_no_error :
    XYChart co0 inpEmpty = Except.ok (sceneTotal co0 inpEmpty) := by rfl

/-- Witness for C1 at the concrete empty render input. -/
theorem empty_series_renders_witness :
    (inpEmpty.series = [] ∧ inpEmpty.settings.goal = none) ∧
    ((sceneTotal co0 inpEmpty).grid = none ∧
      (sceneTotal co0 inpEmpty).axisLeft = none ∧
      (sceneTotal co0 inpEmpty).axisRight = none ∧
      (sceneTotal co0 inpEmpty).areas.seriesList = [] ∧
      (sceneTotal co0 inpEmpty).lines.seriesList = []) :=
  ⟨⟨rfl, rfl⟩,
    (empty_series_renders co0 inpEmpty rfl rfl).2.1,
    (empty_series_renders co0 inpEmpty rfl rfl).2.2.1,
    (empty_series_renders co0 inpEmpty rfl rfl).2.2.2.1,
    (empty_series_renders co0 inpEmpty rfl rfl).2.2.2.2.2.1,
    (empty_series_renders co0 inpEmpty rfl rfl).2.2.2.2.2.2⟩

/-! ## Adaptive compaction (claim C3) -/

theorem groupLabels_mem (co : Collaborators) (inp : RenderInput)
    (group : List HydratedSeries) (q : ℚ) (lbl : String)
    (h : (q, lbl) ∈ groupLabels co inp group) :
    lbl = valueFormatterOf co inp q := by
  unfold groupLabels at h
  by_cases hv : inp.settings.show_values = true
  · rw [if_pos hv] at h
    obtain ⟨p, hp, he⟩ := List.mem_map.mp h
    simp only [Prod.mk.injEq] at he
    obtain ⟨h1, h2⟩ := he
    rw [← h2, h1]
  · rw [if_neg hv] at h
    cases h

/-- Claim C3: compact numeric notation is selected if and only if the mean
formatted length of all pooled Y values under compact notation is smaller
than the mean length under full notation by strictly more than 3 characters,
and the single resulting boolean is baked into the one value formatter that
produces every printed value label of the emitted scene. -/
theorem compaction_spec (co : Collaborators) (inp : RenderInput)
    (hne : ((hydratedOf inp).map (fun s => s.data)).flatten ≠ []) :
    (compactOf co inp = true ↔
      getAvgLength co (hydratedOf inp) inp.settings.y.format false
        - getAvgLength co (hydratedOf inp) inp.settings.y.format true > 3) ∧
    (∀ v, valueFormatterOf co inp v =
      co.formatNumber v
        (maybeAssoc inp.settings.y.format "compact" (FormatVal.bool (compactOf co inp)))) ∧
    (∀ s, XYChart co inp = Except.ok s →
      ∀ q lbl,
        ((q, lbl) ∈ (s.bars.elim [] (fun g => g.valueLabels)) ∨
          (q, lbl) ∈ s.areas.valueLabels ∨ (q, lbl) ∈ s.lines.valueLabels) →
        lbl = co.formatNumber q
          (maybeAssoc inp.settings.y.format "compact" (FormatVal.bool (compactOf co inp)))) := by
  refine ⟨?_, fun v => rfl, ?_⟩
  · unfold compactOf
    rw [decide_eq_true_eq]
    constructor <;> intro h <;> linarith
  · intro s hs q lbl hmem
    obtain ⟨hs', -⟩ := XYChart_ok co inp s hs
    subst hs'
    rcases hmem with hb | ha | hl
    · by_cases hc : ((xScaleOf co inp).barAccessor.isSome
          && (xScaleOf co inp).bandwidth.isSome) = true
      · simp only [sceneTotal, if_pos hc, Option.elim] at hb
        exact groupLabels_mem co inp (barsOf inp) q lbl hb
      · simp only [sceneTotal, if_neg hc, Option.elim] at hb
        cases hb
    · simp only [sceneTotal] at ha
      exact groupLabels_mem co inp (areasOf inp) q lbl ha
    · simp only [sceneTotal] at hl
      exact groupLabels_mem co inp (linesOf inp) q lbl hl

/-- Witness for C3 at a concrete render input with a non-empty pooled data
list. -/
theorem compaction_spec_witness :
    (((hydratedOf inpGoal).map (fun s => s.data)).flatten ≠ []) ∧
    (compactOf co0 inpGoal = true ↔
      getAvgLength co0 (hydratedOf inpGoal) inpGoal.settings.y.format false
        - getAvgLength co0 (hydratedOf inpGoal) inpGoal.settings.y.format true > 3) :=
  ⟨by decide, (compaction_spec co0 inpGoal (by decide)).1⟩

/-! ## X scale accessors and bar rendering (claim C4) -/

/-- Claim C4 (amended): for every x-axis type the X scale exposes both a
bar-anchor accessor and a center accessor, the two coinciding for continuous
(non-ordinal) scales; however only the ordinal scale carries a bandwidth, and
the renderer emits the bar group only when both the bar accessor and the
bandwidth are present — so bar series are rendered only for ordinal x scales,
not for continuous ones. -/
theorem xscale_accessors_spec (series : List HydratedSeries) (range : ℚ × ℚ)
    (t : XAxisType) (co : Collaborators) (inp : RenderInput) :
    ((createXScale series range t).barAccessor.isSome = true) ∧
    (t ≠ XAxisType.ordinal →
      (createXScale series range t).barAccessor
          = some (createXScale series range t).lineAccessor ∧
      (createXScale series range t).bandwidth = none) ∧
    (t = XAxisType.ordinal → (createXScale series range t).bandwidth.isSome = true) ∧
    (inp.settings.x.type ≠ XAxisType.ordinal →
      ∀ s, XYChart co inp = Except.ok s → s.bars = none) ∧
    (inp.settings.x.type = XAxisType.ordinal →
      ∀ s, XYChart co inp = Except.ok s →
        s.bars = some (SeriesGroupSpec.mk (barsOf inp) (groupLabels co inp (barsOf inp)))) := by
  refine ⟨?_, fun ht => ?_, fun ht => ?_, fun ht s hs => ?_, fun ht s hs => ?_⟩
  · cases t <;> simp [createXScale]
  · cases t with
    | ordinal => exact absurd rfl ht
    | timeseries => exact ⟨rfl, rfl⟩
    | linear => exact ⟨rfl, rfl⟩
  · rw [ht]
    simp [createXScale]
  · obtain ⟨hs', -⟩ := XYChart_ok co inp s hs
    subst hs'
    have hbw : (xScaleOf co inp).bandwidth = none := by
      unfold xScaleOf createXScale
      simp [ht]
    simp [sceneTotal, hbw]
  · obtain ⟨hs', -⟩ := XYChart_ok co inp s hs
    subst hs'
    have hba : (xScaleOf co inp).barAccessor.isSome = true := by
      unfold xScaleOf createXScale
      simp [ht]
    have hbw : (xScaleOf co inp).bandwidth.isSome = true := by
      unfold xScaleOf createXScale
      simp [ht]
    simp [sceneTotal, hba, hbw]

/-- Counterexample for C4 as stated: a concrete render of a bar series on a
linear (continuous) x axis succeeds but emits no bar group. -/
theorem bars_on_linear_counterexample :
    inpLinearBar.settings.x.type = XAxisType.linear ∧
    barsOf inpLinearBar ≠ [] ∧
    XYChart co0 inpLinearBar = Except.ok (sceneTotal co0 inpLinearBar) ∧
    (sceneTotal co0 inpLinearBar).bars = none :=
  ⟨rfl, by decide, by rfl, by decide⟩

/-- Witness for C4 at concrete scales and at the concrete linear-bar render
input. -/
theorem xscale_accessors_spec_witness :
    (XAxisType.linear ≠ XAxisType.ordinal ∧
      (createXScale [] (0, 100) XAxisType.linear).bandwidth = none) ∧
    (inpLinearBar.settings.x.type ≠ XAxisType.ordinal ∧
      (sceneTotal co0 inpLinearBar).bars = none) :=
  ⟨⟨by decide,
      ((xscale_accessors_spec [] (0, 100) XAxisType.linear co0 inpLinearBar).2.1
        (by decide)).2⟩,
    ⟨by decide,
      (xscale_accessors_spec [] (0, 100) XAxisType.linear co0 inpLinearBar).2.2.2.1
        (by decide) (sceneTotal co0 inpLinearBar) (by rfl)⟩⟩

/-! ## Default Y scale, grid and goal position (claim C5) -/

/-- Claim C5: the default Y scale is the left scale whenever present and
otherwise the right scale, and both the grid rows and the goal line's
vertical position are computed against exactly this default scale. -/
theorem default_scale_spec (co : Collaborators) (inp : RenderInput) (r : Option YScale)
    (sc : YScale) :
    (defaultYScale (some sc) r = some sc) ∧
    (defaultYScale none r = r) ∧
    (defaultYScaleOf co inp = defaultYScale (yScaleLeftOf co inp) (yScaleRightOf co inp)) ∧
    (∀ s, XYChart co inp = Except.ok s →
      s.grid = (defaultYScaleOf co inp).map
        (fun d => GridSpec.mk d (boundsOf co inp).innerWidth) ∧
      (∀ g, inp.settings.goal = some g → ∃ d, defaultYScaleOf co inp = some d ∧
        s.goal = some (GoalSpec.mk g.label 0 (boundsOf co inp).innerWidth
          (applyYScale d g.value) inp.style.goalColor))) := by
  refine ⟨rfl, rfl, rfl, fun s hs => ?_⟩
  obtain ⟨hs', hgd⟩ := XYChart_ok co inp s hs
  subst hs'
  refine ⟨rfl, fun g hg => ?_⟩
  obtain ⟨d, hd⟩ := hgd (by simp [hg])
  refine ⟨d, hd, ?_⟩
  simp [sceneTotal, goalElemOf, hg, hd]

/-- Witness for C5 at the concrete goal render input. -/
theorem default_scale_spec_witness :
    XYChart co0 inpGoal = Except.ok (sceneTotal co0 inpGoal) ∧
    (sceneTotal co0 inpGoal).grid = (defaultYScaleOf co0 inpGoal).map
      (fun d => GridSpec.mk d (boundsOf co0 inpGoal).innerWidth) :=
  ⟨by rfl,
    ((default_scale_spec co0 inpGoal none (YScale.mk (0, 1) (0, 1))).2.2.2
      (sceneTotal co0 inpGoal) (by rfl)).1⟩

/-! ## Absent opposite axis (claim C6) -/

theorem mem_calcStackedGo_axis (l : List HydratedSeries) (prev : List HydratedSeries)
    (hs : HydratedSeries) (h : hs ∈ calcStackedGo prev l) : ∃ s ∈ l, hs.axis = s.axis := by
  induction l generalizing prev with
  | nil => cases h
  | cons s rest ih =>
    rcases List.mem_cons.mp h with h0 | h1
    · exact ⟨s, List.mem_cons_self s rest, by rw [h0]; rfl⟩
    · obtain ⟨s', hs', he⟩ := ih (prev ++ [s]) h1
      exact ⟨s', List.mem_cons_of_mem s hs', he⟩

theorem mem_hydratedOf_axis (inp : RenderInput) (hs : HydratedSeries)
    (h : hs ∈ hydratedOf inp) : ∃ s ∈ inp.series, hs.axis = s.axis := by
  unfold hydratedOf at h
  have hsort : ∀ hs', hs' ∈ sortSeries inp.series inp.settings.x.type →
      ∃ s ∈ inp.series, hs'.axis = s.axis := by
    intro hs' hmem
    obtain ⟨o, ho, hoe⟩ := List.mem_map.mp hmem
    exact ⟨o, ho, by rw [← hoe]⟩
  by_cases hst : inp.settings.stacking = Stacking.stack
  · rw [if_pos hst] at h
    obtain ⟨s', hs', he⟩ := mem_calcStackedGo_axis _ [] hs h
    obtain ⟨o, ho, hoe⟩ := hsort s' hs'
    exact ⟨o, ho, by rw [he, hoe]⟩
  · rw [if_neg hst] at h
    exact hsort hs h

theorem sideValues_opposite_empty (inp : RenderInput) (side : AxisSide)
    (hall : ∀ s ∈ inp.series, s.axis = side) :
    sideValues (hydratedOf inp) (oppositeSide side) = [] := by
  unfold sideValues
  have hfil : (hydratedOf inp).filter (fun s => s.axis = oppositeSide side) = [] := by
    rw [List.filter_eq_nil_iff]
    intro hs hmem
    obtain ⟨o, ho, he⟩ := mem_hydratedOf_axis inp hs hmem
    simp only [decide_eq_true_eq]
    rw [he, hall o ho]
    cases side <;> simp [oppositeSide]
  rw [hfil]
  rfl

theorem yDomains_left_none (inp : RenderInput)
    (h : sideValues (hydratedOf inp) AxisSide.left = []) : (yDomainsOf inp).1 = none := by
  unfold yDomainsOf calculateYDomains
  simp [h, domainOfSide]

theorem yDomains_right_none (inp : RenderInput)
    (h : sideValues (hydratedOf inp) AxisSide.right = []) : (yDomainsOf inp).2 = none := by
  unfold yDomainsOf calculateYDomains
  simp [h, domainOfSide]

theorem yScaleLeft_none (co : Collaborators) (inp : RenderInput)
    (h : (yDomainsOf inp).1 = none) : yScaleLeftOf co inp = none := by
  unfold yScaleLeftOf yScalesOf createYScales
  simp [h]

theorem yScaleRight_none (co : Collaborators) (inp : RenderInput)
    (h : (yDomainsOf inp).2 = none) : yScaleRightOf co inp = none := by
  unfold yScaleRightOf yScalesOf createYScales
  simp [h]

/-- Claim C6: for every input whose series all sit on a single axis side, the
Y scale of the opposite side is absent (`none`, not a degenerate scale), and
a successfully emitted scene carries no axis element for the unused side. -/
theorem single_axis_side_spec (co : Collaborators) (inp : RenderInput) (side : AxisSide)
    (hall : ∀ s ∈ inp.series, s.axis = side) :
    yScaleOfSide co inp (oppositeSide side) = none ∧
    (∀ s, XYChart co inp = Except.ok s → axisOfSide s (oppositeSide side) = none) := by
  have hsv := sideValues_opposite_empty inp side hall
  cases side with
  | left =>
    simp only [oppositeSide] at hsv
    have h2 := yScaleRight_none co inp (yDomains_right_none inp hsv)
    refine ⟨h2, fun s hs => ?_⟩
    obtain ⟨hs', -⟩ := XYChart_ok co inp s hs
    subst hs'
    show (sceneTotal co inp).axisRight = none
    simp [sceneTotal, h2]
  | right =>
    simp only [oppositeSide] at hsv
    have h2 := yScaleLeft_none co inp (yDomains_left_none inp hsv)
    refine ⟨h2, fun s hs => ?_⟩
    obtain ⟨hs', -⟩ := XYChart_ok co inp s hs
    subst hs'
    show (sceneTotal co inp).axisLeft = none
    simp [sceneTotal, h2]

/-- Witness for C6 at the concrete all-left render input. -/
theorem single_axis_side_spec_witness :
    (∀ s ∈ inpGoal.series, s.axis = AxisSide.left) ∧
    yScaleOfSide co0 inpGoal (oppositeSide AxisSide.left) = none :=
  ⟨by decide, (single_axis_side_spec co0 inpGoal AxisSide.left (by decide)).1⟩

/-! ## Goal line presence and geometry (claim C7) -/

/-- Claim C7: in a successfully rendered scene a goal-line element is present
if and only if `settings.goal` is present (a missing goal is silently
skipped, never an error), and when present it is horizontal at the default Y
scale's position for the goal value, spans x from 0 to the inner width, and
carries the goal's label. -/
theorem goal_line_spec (co : Collaborators) (inp : RenderInput) (s : Scene)
    (hs : XYChart co inp = Except.ok s) :
    (s.goal.isSome = inp.settings.goal.isSome) ∧
    (inp.settings.goal = none → s.goal = none) ∧
    (∀ g, inp.settings.goal = some g → ∃ d, defaultYScaleOf co inp = some d ∧
      s.goal = some (GoalSpec.mk g.label 0 (boundsOf co inp).innerWidth
        (applyYScale d g.value) inp.style.goalColor)) := by
  obtain ⟨hs', hgd⟩ := XYChart_ok co inp s hs
  subst hs'
  have hmain : ∀ g, inp.settings.goal = some g →
      ∃ d, defaultYScaleOf co inp = some d ∧
        (sceneTotal co inp).goal = some (GoalSpec.mk g.label 0
          (boundsOf co inp).innerWidth (applyYScale d g.value) inp.style.goalColor) := by
    intro g hg
    obtain ⟨d, hd⟩ := hgd (by simp [hg])
    refine ⟨d, hd, ?_⟩
    simp [sceneTotal, goalElemOf, hg, hd]
  refine ⟨?_, fun hg => by simp [sceneTotal, goalElemOf, hg], hmain⟩
  cases hg : inp.settings.goal with
  | none => simp [sceneTotal, goalElemOf, hg]
  | some g =>
    obtain ⟨d, hd, he⟩ := hmain g hg
    simp [he]

/-- Witness for C7 at the concrete goal render input. -/
theorem goal_line_spec_witness :
    XYChart co0 inpGoal = Except.ok (sceneTotal co0 inpGoal) ∧
    (sceneTotal co0 inpGoal).goal.isSome = inpGoal.settings.goal.isSome :=
  ⟨by rfl,
    (goal_line_spec co0 inpGoal (sceneTotal co0 inpGoal) (by rfl)).1⟩

/-! ## maybeAssoc (claim C8) -/

theorem lookupFmt_assocFmt_self (c : FormatOptions) (k : String) (v : FormatVal) :
    lookupFmt (assocFmt c k v) k = some v := by
  induction c with
  | nil => simp [assocFmt, lookupFmt]
  | cons p rest ih =>
    by_cases h : p.1 = k
    · simp [assocFmt, h, lookupFmt]
    · simp [assocFmt, h, lookupFmt, ih]

theorem lookupFmt_assocFmt_other (c : FormatOptions) (k k' : String) (v : FormatVal)
    (h : k' ≠ k) : lookupFmt (assocFmt c k v) k' = lookupFmt c k' := by
  have hk : ¬ k = k' := fun hh => h hh.symm
  induction c with
  | nil => simp [assocFmt, lookupFmt, hk]
  | cons p rest ih =>
    by_cases hp : p.1 = k
    · simp [assocFmt, hp, lookupFmt, hk]
    · simp [assocFmt, hp, lookupFmt, ih]

/-- Claim C8: `maybeAssoc(collection, key, value)` returns the collection
unchanged when it is null/undefined (absent base config yields an absent
derived config), and otherwise returns a copy of the collection with the key
bound to the value, leaving every other binding unchanged (the embedding is
pure, so the original collection is never mutated). -/
theorem maybeAssoc_spec :
    (∀ k v, maybeAssoc none k v = none) ∧
    (∀ c k v, maybeAssoc (some c) k v = some (assocFmt c k v)) ∧
    (∀ c k v, lookupFmt (assocFmt c k v) k = some v) ∧
    (∀ c k k' v, k' ≠ k → lookupFmt (assocFmt c k v) k' = lookupFmt c k') :=
  ⟨fun _ _ => rfl, fun _ _ _ => rfl, lookupFmt_assocFmt_self,
    fun c k k' v h => lookupFmt_assocFmt_other c k k' v h⟩

/-- Witness for C8 at a concrete collection, key and value. -/
theorem maybeAssoc_spec_witness :
    maybeAssoc none "compact" (FormatVal.bool true) = none ∧
    maybeAssoc (some [("currency", FormatVal.str "usd")]) "compact" (FormatVal.bool true)
      = some (assocFmt [("currency", FormatVal.str "usd")] "compact" (FormatVal.bool true)) ∧
    lookupFmt (assocFmt [("currency", FormatVal.str "usd")] "compact" (FormatVal.bool true))
      "compact" = some (FormatVal.bool true) ∧
    ("currency" ≠ "compact" ∧
      lookupFmt (assocFmt [("currency", FormatVal.str "usd")] "compact" (FormatVal.bool true))
        "currency" = lookupFmt [("currency", FormatVal.str "usd")] "currency") :=
  ⟨maybeAssoc_spec.1 "compact" (FormatVal.bool true),
    maybeAssoc_spec.2.1 _ "compact" (FormatVal.bool true),
    maybeAssoc_spec.2.2.1 _ "compact" (FormatVal.bool true),
    by decide,
    maybeAssoc_spec.2.2.2 _ "compact" "currency" (FormatVal.bool true) (by decide)⟩

/-! ## Aggregation.columnName (claim C9) -/

/-- Claim C9 (amended): a standard `"distinct"` clause with no display-name
option — bare or wrapped in `aggregation-options` without one — yields the
column name `"count"` rather than `"distinct"`; a clause wrapped with a
non-empty `"display-name"` option yields that display name regardless of the
aggregation kind. -/
theorem columnName_spec (md : Metadata) (fuel : ℕ) (f : Option ℚ)
    (opts : List (String × String)) (inner : AggClause) (s : String) :
    (columnName md fuel (AggClause.standard "distinct" f) = some "count") ∧
    (lookupOpt opts "display-name" = none →
      columnName md fuel (AggClause.optionsA (AggClause.standard "distinct" f) opts)
        = some "count") ∧
    (s ≠ "" → lookupOpt opts "display-name" = some s →
      columnName md fuel (AggClause.optionsA inner opts) = some s) := by
  refine ⟨?_, fun hd => ?_, fun hs hd => ?_⟩
  · simp [columnName, optionsOf, lookupOpt, aggregationOf, isCustom, isMetric, isStandard,
      shortAgg]
  · simp [columnName, optionsOf, hd, aggregationOf, isCustom, isMetric, isStandard, shortAgg]
  · simp [columnName, optionsOf, hd, hs]

/-- Witness for C9 at concrete clauses. -/
theorem columnName_spec_witness :
    (columnName mdEmpty 3 (AggClause.standard "distinct" (some 7)) = some "count") ∧
    (lookupOpt [("named", "x")] "display-name" = none ∧
      columnName mdEmpty 3
        (AggClause.optionsA (AggClause.standard "distinct" (some 7)) [("named", "x")])
        = some "count") ∧
    (("Total" : String) ≠ "" ∧
      lookupOpt [("display-name", "Total")] "display-name" = some "Total" ∧
      columnName mdEmpty 3
        (AggClause.optionsA (AggClause.metricA 5) [("display-name", "Total")])
        = some "Total") :=
  ⟨(columnName_spec mdEmpty 3 (some 7) [] AggClause.custom "x").1,
    ⟨by decide,
      (columnName_spec mdEmpty 3 (some 7) [("named", "x")] AggClause.custom "x").2.1
        (by decide)⟩,
    ⟨by decide, by decide,
      (columnName_spec mdEmpty 3 (some 7) [("display-name", "Total")]
        (AggClause.metricA 5) "Total").2.2 (by decide) (by decide)⟩⟩

/-- Counterexample for C9 as stated: a clause carrying a `"display-name"`
option bound to the empty string does not get that display name back — the
truthiness check skips it and the standard operator is returned instead. -/
theorem columnName_empty_display_name :
    columnName mdEmpty 3
      (AggClause.optionsA (AggClause.standard "sum" none) [("display-name", "")])
      = some "sum" ∧
    (some "sum" : Option String) ≠ some "" := by
  exact ⟨rfl, by decide⟩

/-! ## Aggregation.baseType (claim C10) -/

/-- Claim C10: `baseType()` returns the Integer type exactly when the clause's
short operator is one of `"count"`, `"cum-count"`, `"distinct"`, and the Float
type in every other case — including custom expressions and metric clauses
whose short operator is undefined (unresolvable metric). -/
theorem baseType_spec (md : Metadata) (fuel : ℕ) (op : String) (f : Option ℚ) (id : ℕ) :
    (∀ c, baseType md fuel c = BaseType.integer ↔
      ∃ s, shortAgg md fuel c = some s ∧ s ∈ INTEGER_AGGREGATIONS) ∧
    (baseType md fuel (AggClause.standard "count" f) = BaseType.integer) ∧
    (baseType md fuel (AggClause.standard "cum-count" f) = BaseType.integer) ∧
    (baseType md fuel (AggClause.standard "distinct" f) = BaseType.integer) ∧
    (baseType md fuel AggClause.custom = BaseType.float) ∧
    (md id = none → baseType md fuel (AggClause.metricA id) = BaseType.float) ∧
    (op ∉ INTEGER_AGGREGATIONS →
      baseType md fuel (AggClause.standard op f) = BaseType.float) := by
  refine ⟨fun c => ?_, ?_, ?_, ?_, ?_, fun hmd => ?_, fun hop => ?_⟩
  · unfold baseType
    cases h : shortAgg md fuel c with
    | none => simp
    | some s =>
      by_cases hc : s ∈ INTEGER_AGGREGATIONS
      · simp [hc]
      · simp [hc]
  · simp [baseType, shortAgg, aggregationOf, INTEGER_AGGREGATIONS]
  · simp [baseType, shortAgg, aggregationOf, INTEGER_AGGREGATIONS]
  · simp [baseType, shortAgg, aggregationOf, INTEGER_AGGREGATIONS]
  · simp [baseType, shortAgg, aggregationOf]
  · simp [baseType, shortAgg, aggregationOf, hmd]
  · simp [baseType, shortAgg, aggregationOf, hop]

/-- Witness for C10 at concrete clauses: an unresolvable metric and a
non-integer standard operator both get the Float type. -/
theorem baseType_spec_witness :
    (mdEmpty 4 = none ∧ baseType mdEmpty 2 (AggClause.metricA 4) = BaseType.float) ∧
    (("sum" : String) ∉ INTEGER_AGGREGATIONS ∧
      baseType mdEmpty 2 (AggClause.standard "sum" none) = BaseType.float) :=
  ⟨⟨rfl, (baseType_spec mdEmpty 2 "sum" none 4).2.2.2.2.2.1 rfl⟩,
    ⟨by decide, (baseType_spec mdEmpty 2 "sum" none 4).2.2.2.2.2.2 (by decide)⟩⟩

end MB
